import Mathlib

/-!
Verification development for a small 16-bit register-machine emulator
written in Python (files Processor.py, Memory.py, Keyboard.py).

The Lean definitions below are a shallow embedding of the Python source,
translated function by function.  Conventions used throughout:

* Python exceptions are modelled with the error type PyErr and the
  Except monad; a tick that raises is modelled as returning an error
  value (the host observes the exception, the machine value is not
  rebuilt on the error path).
* Machine integers are Lean Int: Python ints are unbounded, and the code
  itself keeps plain Python ints in registers and memory cells.
* Python integer division // is Int.fdiv (floor division); the Python
  expression v and-mask 0xFF equals v % 256 (true for every Int when the
  mask is 2 to the k minus 1); the Python expression (complement v)
  and-mask 0xFFFFFFFF equals (-v - 1) % 4294967296.
* The Keyboard object that Memory.set_keyboard_pointer stores inside
  data_memory at the keyboard address is modelled as a separate field
  keyboard on Memory holding the FIFO contents; data cells proper hold
  Option Int (none is the Python None of an uninitialised cell).
* Python evaluates both operands of a binary instruction and then raises
  TypeError at the arithmetic operator when a value is None; the model
  raises that TypeError directly after evaluating the operand that is
  none, which can reorder which error surfaces in states where several
  would be raised, and loses partial flag writes of a failing CMP.  No
  theorem below depends on those corners.
-/

namespace VM

/-- Errors mirroring the Python exception classes the source raises:
DivisionByZeroException, InvalidMemoryAddrError, MemoryOverflowError,
ValueError, AssertionError, IndexError, TypeError, AttributeError. -/
inductive PyErr where
  | divisionByZero (msg : String)
  | invalidMemoryAddr (msg : String)
  | memoryOverflow (msg : String)
  | valueError (msg : String)
  | assertionError (msg : String)
  | indexError (msg : String)
  | typeError (msg : String)
  | attributeError (msg : String)
  deriving Repr, DecidableEq

/-- Content of one data-memory cell: none is the Python None of an
uninitialised cell, some v an integer written by the program. -/
abbrev Cell := Option Int

/-- Values that appear on the Python list stack_pointer: the push
instruction appends operand strings, call appends the integer program
counter (or None when the counter is unset). -/
inductive StackElem where
  | noneV : StackElem
  | intV (n : Int) : StackElem
  | strV (s : String) : StackElem
  deriving Repr, DecidableEq

/-- Python truthiness of a stack element, used by the ret instruction:
None is falsy, an int is truthy iff nonzero, a string iff nonempty. -/
def StackElem.truthy : StackElem → Bool
  | .noneV => false
  | .intV n => n != 0
  | .strV s => s != ""

/-- The flags dictionary of the processor. -/
structure Flags where
  CF : Bool
  PF : Bool
  ZF : Bool
  SF : Bool
  OF : Bool
  deriving Repr, DecidableEq

/-- One stored instruction-memory entry: Python stores either the tuple
(opcode string, operand strings) or None for a label placeholder. -/
abbrev InstrEntry := Option (String × List String)

/-- The Memory object of Memory.py. -/
structure Memory where
  instructionMemorySize : Nat
  dataMemorySize : Nat
  keyboardBufferAddress : Int
  videoMemoryStart : Int
  videoMemoryEnd : Int
  instructionMemory : List InstrEntry
  dataMemory : List Cell
  labels : List (String × Nat)
  keyboard : Option (List Nat)
  deriving Repr, DecidableEq

namespace Memory

/-- Memory.check_memory_address: raises InvalidMemoryAddrError when the
address is out of the data segment or is the keyboard cell.  Addresses in
the model are always ints, so the isinstance guard always passes. -/
def check_memory_address (m : Memory) (address : Int) : Except PyErr Unit :=
  if address ≥ (m.dataMemorySize : Int) ∨ address < 0 then
    .error (.invalidMemoryAddr "Data memory overflow")
  else if address = m.keyboardBufferAddress then
    .error (.invalidMemoryAddr "Cannot overwrite keyboard buffer")
  else
    .ok ()

/-- Memory.set_data: validates the address, masks video-range values to
their low byte (value mod 256 equals the Python bitwise and with 0xFF),
and assigns the cell. -/
def set_data (m : Memory) (address : Int) (value : Int) : Except PyErr Memory := do
  check_memory_address m address
  let value :=
    if address ≥ m.videoMemoryStart ∧ address ≤ m.videoMemoryEnd then
      value % 256
    else value
  .ok { m with dataMemory := m.dataMemory.set address.toNat (some value) }

/-- Memory.get_data: validates the address and returns the cell content
(none models the Python None of an uninitialised cell). -/
def get_data (m : Memory) (address : Int) : Except PyErr Cell := do
  check_memory_address m address
  .ok (m.dataMemory.getD address.toNat none)

/-- Memory.check_instruction_memory_overflow. -/
def check_instruction_memory_overflow (m : Memory) (address : Nat) : Except PyErr Unit :=
  if address ≥ m.instructionMemorySize then
    .error (.memoryOverflow "Instruction memory overflow")
  else .ok ()

/-- Memory.add_instruction: appends the entry and, when a label name is
supplied, binds it to the index of the entry just appended (the Python
dict assignment is modelled by prepending to an association list that is
always read through List.lookup, first binding wins). -/
def add_instruction (m : Memory) (instruction : InstrEntry) (label : Option String) :
    Except PyErr Memory := do
  check_instruction_memory_overflow m m.instructionMemory.length
  let im := m.instructionMemory ++ [instruction]
  let labels :=
    match label with
    | none => m.labels
    | some l => (l, im.length - 1) :: m.labels
  .ok { m with instructionMemory := im, labels := labels }

/-- Memory.check_instruction_memory_address for an int address; the
address-is-None disjunct of the Python code is handled at the call sites,
where a None program counter makes the preceding comparison raise. -/
def check_instruction_memory_address (m : Memory) (address : Int) : Bool :=
  if address ≥ (m.instructionMemorySize : Int) ∨ address < 0 ∨
      address ≥ (m.instructionMemory.length : Int) then
    false
  else true

/-- Memory.get_instruction. -/
def get_instruction (m : Memory) (address : Int) : Except PyErr InstrEntry :=
  if check_instruction_memory_address m address then
    .ok (m.instructionMemory.getD address.toNat none)
  else
    .error (.invalidMemoryAddr "Invalid instruction memory address")

/-- Memory.goto_label: raises ValueError when the label is absent. -/
def goto_label (m : Memory) (label : String) : Except PyErr Nat :=
  match m.labels.lookup label with
  | none => .error (.valueError "Label not found")
  | some idx => .ok idx

/-- Memory.get_keyboard_pointer, via the modelled keyboard field. -/
def get_keyboard_pointer (m : Memory) : Option (List Nat) :=
  m.keyboard

/-- Memory.validate_memory_size. -/
def validate_memory_size (size : Nat) : Except PyErr Unit :=
  if size % 1024 ≠ 0 ∨ size > 65536 then
    .error (.valueError "Memory size must be a multiple of 1 KB and not exceed 65536 bytes")
  else .ok ()

end Memory

/-- The Processor object of Processor.py together with its Memory.  The
sourceLines field carries the text of the instruction file that Python
reads from disk in parse_file. -/
structure Machine where
  dataRegisters : List Int
  flags : Flags
  programCounter : Option Int
  stackPointer : List StackElem
  mem : Memory
  isFileParsed : Bool
  fileName : Option String
  sourceLines : List String
  isReadingInput : Bool
  input : String
  inputDestination : Option String
  deriving Repr, DecidableEq

/-- The keys of the instruction_types dictionary of the processor. -/
def instructionTypeNames : List String :=
  ["MOV", "ADD", "SUB", "MUL", "DIV", "CMP",
   "JMP", "JE", "JNE", "JG", "JL", "JGE", "JLE",
   "PUSH", "POP", "CALL", "RET",
   "NOT", "AND", "OR", "XOR", "SHL", "SHR"]

/-! String primitives re-implemented over the underlying character list
so that every definition reduces inside the kernel; each behaves as
the corresponding Python str method used by the source. -/

/-- Python str.startswith. -/
def strStartsWith (s p : String) : Bool :=
  p.data.isPrefixOf s.data

/-- Python str.endswith. -/
def strEndsWith (s p : String) : Bool :=
  p.data.isSuffixOf s.data

/-- Python slicing s[n:]. -/
def strDrop (s : String) (n : Nat) : String :=
  ⟨s.data.drop n⟩

/-- Python slicing s[:-n]. -/
def strDropRight (s : String) (n : Nat) : String :=
  ⟨s.data.take (s.data.length - n)⟩

/-- Decimal value of a digit string. -/
def digitsToNat (l : List Char) : Nat :=
  l.foldl (fun acc c => 10 * acc + (c.toNat - 48)) 0

/-- Python int(s): an optional minus sign followed by at least one
digit; anything else raises ValueError, modelled as none.  (Python also
strips whitespace and accepts a plus sign and underscores; the operand
tokens of this machine never contain those.) -/
def strToInt? (s : String) : Option Int :=
  match s.data with
  | [] => none
  | '-' :: rest =>
    if rest ≠ [] ∧ rest.all Char.isDigit then some (-(digitsToNat rest : Int)) else none
  | l =>
    if l.all Char.isDigit then some ((digitsToNat l : Int)) else none

/-- Python s.split(SEMICOLON)[0]: everything before the first
semicolon. -/
def strSplitSemiHead (s : String) : String :=
  ⟨s.data.takeWhile (fun c => c ≠ ';')⟩

/-- Python s.replace(COMMA, EMPTY): removes every comma. -/
def strRemoveCommas (s : String) : String :=
  ⟨s.data.filter (fun c => c ≠ ',')⟩

/-- Python s.strip(): removes leading and trailing whitespace. -/
def strTrim (s : String) : String :=
  ⟨((s.data.dropWhile Char.isWhitespace).reverse.dropWhile Char.isWhitespace).reverse⟩

/-- Grouping step for whitespace splitting: a whitespace character
starts a new group, any other character is prepended to the current
group. -/
def splitWsGroups (l : List Char) : List (List Char) :=
  l.foldr
    (fun c acc =>
      if Char.isWhitespace c then [] :: acc
      else
        match acc with
        | [] => [[c]]
        | h :: t => (c :: h) :: t)
    [[]]

/-- Python str.split() with no argument: split on whitespace runs,
dropping empty pieces. -/
def splitWs (s : String) : List String :=
  ((splitWsGroups s.data).filter (fun t => t ≠ [])).map (fun cs => ⟨cs⟩)

namespace Machine

/-- Processor.assert_16_bit: saturates a value to the signed 16-bit
range (the Python function also prints a warning, which has no state
effect). -/
def assert_16_bit (value : Int) : Int :=
  if value > 32767 then 32767
  else if value < -32768 then -32768
  else value

/-- Processor.check_register_index: raises ValueError when the index is
outside the register file. -/
def check_register_index (mach : Machine) (index : Int) : Except PyErr Unit :=
  if index < 0 ∨ index ≥ (mach.dataRegisters.length : Int) then
    .error (.valueError "Invalid register index")
  else .ok ()

/-- Processor.parse_memory_operand: a memory operand is either MR
followed by a register index (register-indirect) or M followed by an
integer literal; the Python int() call on a malformed tail raises
ValueError, modelled through String.toInt?. -/
def parse_memory_operand (mach : Machine) (operand : String) : Except PyErr Int :=
  if strStartsWith operand "M" then
    if strStartsWith (strDrop operand 1) "R" then
      match strToInt? (strDrop operand 2) with
      | none => .error (.valueError "invalid literal for int")
      | some ri => do
        check_register_index mach ri
        .ok (mach.dataRegisters.getD ri.toNat 0)
    else
      match strToInt? (strDrop operand 1) with
      | none => .error (.valueError "invalid literal for int")
      | some a => .ok a
  else .error (.valueError "Invalid memory operand format")

/-- Processor.get_operand_value: register, immediate (saturated on
read), or memory operand; any other operand prints an error message and
evaluates to 0. -/
def get_operand_value (mach : Machine) (operand : String) : Except PyErr Cell :=
  if strStartsWith operand "R" then
    match strToInt? (strDrop operand 1) with
    | none => .error (.valueError "invalid literal for int")
    | some i => do
      check_register_index mach i
      .ok (some (mach.dataRegisters.getD i.toNat 0))
  else if strStartsWith operand "#" then
    match strToInt? (strDrop operand 1) with
    | none => .error (.valueError "invalid literal for int")
    | some n => .ok (some (assert_16_bit n))
  else if strStartsWith operand "M" then do
    let address ← parse_memory_operand mach operand
    mach.mem.get_data address
  else
    .ok (some 0)

/-- Conversion of an evaluated cell to an int at an arithmetic operator:
Python raises TypeError when the value is None. -/
def asInt (c : Cell) : Except PyErr Int :=
  match c with
  | some v => .ok v
  | none => .error (.typeError "unsupported operand type: NoneType")

/-- Processor.store_result: the Python body calls assert_16_bit(result)
on line 261 but DISCARDS the returned value, so the raw result is what
gets stored into the register or memory cell.  An unsupported
destination only prints an error message. -/
def store_result (mach : Machine) (destination : String) (result : Int) :
    Except PyErr Machine :=
  if strStartsWith destination "R" then
    match strToInt? (strDrop destination 1) with
    | none => .error (.valueError "invalid literal for int")
    | some i => do
      check_register_index mach i
      .ok { mach with dataRegisters := mach.dataRegisters.set i.toNat result }
  else if strStartsWith destination "M" then do
    let address ← parse_memory_operand mach destination
    let mem ← mach.mem.set_data address result
    .ok { mach with mem := mem }
  else .ok mach

/-- Processor.get_memory_data: evaluates a memory operand, except that an
access to the keyboard buffer address enters the reading-input state,
records the destination operand, and yields None. -/
def get_memory_data (mach : Machine) (operand : String) (destination : String) :
    Except PyErr (Cell × Machine) :=
  if strStartsWith operand "M" then do
    let address ← parse_memory_operand mach operand
    if address = mach.mem.keyboardBufferAddress then
      .ok (none, { mach with isReadingInput := true, inputDestination := some destination })
    else do
      let c ← mach.mem.get_data address
      .ok (c, mach)
  else .error (.valueError "Invalid memory operand format")

/-- Processor.convert_keyboard_input: an all-digit string maps to its
decimal value, any other single character to its code point, anything
else to -1. -/
def convert_keyboard_input (keyboardInput : String) : Int :=
  if keyboardInput.data.length > 0 ∧ keyboardInput.data.all Char.isDigit then
    ((digitsToNat keyboardInput.data : Nat) : Int)
  else if keyboardInput.data.length = 1 then
    ((keyboardInput.data.headD default).toNat : Int)
  else
    -1

/-- Processor.mov: extracts the source value with its own inline operand
dispatch (note: an immediate source is read with a bare int() call, with
no 16-bit saturation), then stores it; when get_memory_data yields None
(keyboard trap or uninitialised cell) mov returns without storing.
Arity errors and unsupported source operands only print a message. -/
def mov (mach : Machine) (operands : List String) : Except PyErr Machine :=
  match operands with
  | [destination, source] =>
    if strStartsWith source "#" then
      match strToInt? (strDrop source 1) with
      | none => .error (.valueError "invalid literal for int")
      | some n => store_result mach destination n
    else if strStartsWith source "R" then
      match strToInt? (strDrop source 1) with
      | none => .error (.valueError "invalid literal for int")
      | some i => do
        check_register_index mach i
        store_result mach destination (mach.dataRegisters.getD i.toNat 0)
    else if strStartsWith source "M" then do
      let (v, mach) ← get_memory_data mach source destination
      match v with
      | none => .ok mach
      | some value => store_result mach destination value
    else .ok mach
  | _ => .ok mach

/-- Processor.add. -/
def add (mach : Machine) (operands : List String) : Except PyErr Machine :=
  match operands with
  | [o1, o2] => do
    let v1 ← get_operand_value mach o1 >>= asInt
    let v2 ← get_operand_value mach o2 >>= asInt
    store_result mach o1 (v1 + v2)
  | _ => .ok mach

/-- Processor.sub. -/
def sub (mach : Machine) (operands : List String) : Except PyErr Machine :=
  match operands with
  | [o1, o2] => do
    let v1 ← get_operand_value mach o1 >>= asInt
    let v2 ← get_operand_value mach o2 >>= asInt
    store_result mach o1 (v1 - v2)
  | _ => .ok mach

/-- Processor.mul. -/
def mul (mach : Machine) (operands : List String) : Except PyErr Machine :=
  match operands with
  | [o1, o2] => do
    let v1 ← get_operand_value mach o1 >>= asInt
    let v2 ← get_operand_value mach o2 >>= asInt
    store_result mach o1 (v1 * v2)
  | _ => .ok mach

/-- Processor.div: raises DivisionByZeroException when the second
operand evaluates to 0 (before any store), and otherwise stores the
Python floor division of the two values (Int.fdiv). -/
def div (mach : Machine) (operands : List String) : Except PyErr Machine :=
  match operands with
  | [o1, o2] => do
    let v1 ← get_operand_value mach o1 >>= asInt
    let v2 ← get_operand_value mach o2 >>= asInt
    if v2 ≠ 0 then
      store_result mach o1 (Int.fdiv v1 v2)
    else
      .error (.divisionByZero "Video memory address out of bounds")
  | _ => .ok mach

/-- Processor.cmp: updates ZF, SF, CF, OF from the two evaluated
operands; PF is never written. -/
def cmp (mach : Machine) (operands : List String) : Except PyErr Machine :=
  match operands with
  | [o1, o2] => do
    let v1 ← get_operand_value mach o1 >>= asInt
    let v2 ← get_operand_value mach o2 >>= asInt
    .ok { mach with flags :=
      { mach.flags with
        ZF := decide (v1 = v2)
        SF := decide (v1 - v2 < 0)
        CF := decide (v1 < v2)
        OF := decide (v1 - v2 > 32767 ∨ v1 - v2 < -32768) } }
  | _ => .ok mach

/-- Processor.jmp. -/
def jmp (mach : Machine) (operands : List String) : Except PyErr Machine :=
  match operands with
  | [label] => do
    let idx ← mach.mem.goto_label label
    .ok { mach with programCounter := some (idx : Int) }
  | _ => .ok mach

/-- Processor.je: branch when ZF. -/
def je (mach : Machine) (operands : List String) : Except PyErr Machine :=
  match operands with
  | [label] =>
    if mach.flags.ZF then do
      let idx ← mach.mem.goto_label label
      .ok { mach with programCounter := some (idx : Int) }
    else .ok mach
  | _ => .ok mach

/-- Processor.jne: branch when not ZF. -/
def jne (mach : Machine) (operands : List String) : Except PyErr Machine :=
  match operands with
  | [label] =>
    if !mach.flags.ZF then do
      let idx ← mach.mem.goto_label label
      .ok { mach with programCounter := some (idx : Int) }
    else .ok mach
  | _ => .ok mach

/-- Processor.jg: branch when not ZF and SF equals OF. -/
def jg (mach : Machine) (operands : List String) : Except PyErr Machine :=
  match operands with
  | [label] =>
    if !mach.flags.ZF && mach.flags.SF == mach.flags.OF then do
      let idx ← mach.mem.goto_label label
      .ok { mach with programCounter := some (idx : Int) }
    else .ok mach
  | _ => .ok mach

/-- Processor.jl: branch when SF and not ZF. -/
def jl (mach : Machine) (operands : List String) : Except PyErr Machine :=
  match operands with
  | [label] =>
    if mach.flags.SF && !mach.flags.ZF then do
      let idx ← mach.mem.goto_label label
      .ok { mach with programCounter := some (idx : Int) }
    else .ok mach
  | _ => .ok mach

/-- Processor.jge: the Python condition on line 515 is
flags SF == flags ZF (it compares SF with the ZERO flag, not with OF). -/
def jge (mach : Machine) (operands : List String) : Except PyErr Machine :=
  match operands with
  | [label] =>
    if mach.flags.SF == mach.flags.ZF then do
      let idx ← mach.mem.goto_label label
      .ok { mach with programCounter := some (idx : Int) }
    else .ok mach
  | _ => .ok mach

/-- Processor.jle: branch when ZF or SF differs from OF. -/
def jle (mach : Machine) (operands : List String) : Except PyErr Machine :=
  match operands with
  | [label] =>
    if mach.flags.ZF || mach.flags.SF != mach.flags.OF then do
      let idx ← mach.mem.goto_label label
      .ok { mach with programCounter := some (idx : Int) }
    else .ok mach
  | _ => .ok mach

/-- Processor.push: appends the operand STRING itself to the stack (the
operand is never evaluated); a wrong arity only prints a message. -/
def push (mach : Machine) (operands : List String) : Except PyErr Machine :=
  match operands with
  | [op] => .ok { mach with stackPointer := mach.stackPointer ++ [.strV op] }
  | _ => .ok mach

/-- Processor.pop: removes the top of the stack and DISCARDS it (the
destination operand is never written); popping an empty Python list
raises IndexError. -/
def pop (mach : Machine) (operands : List String) : Except PyErr Machine :=
  match operands with
  | [_] =>
    match mach.stackPointer.getLast? with
    | none => .error (.indexError "pop from empty list")
    | some _ => .ok { mach with stackPointer := mach.stackPointer.dropLast }
  | _ => .ok mach

/-- Value that call pushes: the current program counter, or None when it
is unset. -/
def pushedPc (mach : Machine) : StackElem :=
  match mach.programCounter with
  | none => .noneV
  | some n => .intV n

/-- Processor.call: appends the current program counter to the stack and
jumps to the label.  In Python the append happens before goto_label may
raise; in this transactional model an unknown label leaves no trace of
the push, a corner no theorem relies on. -/
def call (mach : Machine) (operands : List String) : Except PyErr Machine :=
  match operands with
  | [label] => do
    let idx ← mach.mem.goto_label label
    .ok { mach with
      stackPointer := mach.stackPointer ++ [pushedPc mach]
      programCounter := some (idx : Int) }
  | _ => .ok mach

/-- Processor.ret: an empty stack only prints a message; otherwise the
top is popped and, when truthy, an int sets the program counter directly
while a string is resolved through goto_label.  A popped value of 0 is
falsy in Python, so it is silently dropped without setting the counter. -/
def ret (mach : Machine) (_operands : List String) : Except PyErr Machine :=
  match mach.stackPointer.getLast? with
  | none => .ok mach
  | some label =>
    let mach := { mach with stackPointer := mach.stackPointer.dropLast }
    if label.truthy then
      match label with
      | .intV n => .ok { mach with programCounter := some n }
      | .strV s => do
        let idx ← mach.mem.goto_label s
        .ok { mach with programCounter := some (idx : Int) }
      | .noneV => .ok mach
    else .ok mach

/-- Processor.not_op: the Python result is complement of the value
masked to 32 bits, equal to (-v - 1) mod 2 to the 32; a wrong arity
raises ValueError. -/
def not_op (mach : Machine) (operands : List String) : Except PyErr Machine :=
  match operands with
  | [o] => do
    let v ← get_operand_value mach o >>= asInt
    store_result mach o ((-v - 1) % 4294967296)
  | _ => .error (.valueError "NOT instruction requires one operand")

/-- Processor.and_op. -/
def and_op (mach : Machine) (operands : List String) : Except PyErr Machine :=
  match operands with
  | [o1, o2] => do
    let v1 ← get_operand_value mach o1 >>= asInt
    let v2 ← get_operand_value mach o2 >>= asInt
    store_result mach o1 (Int.land v1 v2)
  | _ => .error (.valueError "AND instruction requires two operands")

/-- Processor.or_op. -/
def or_op (mach : Machine) (operands : List String) : Except PyErr Machine :=
  match operands with
  | [o1, o2] => do
    let v1 ← get_operand_value mach o1 >>= asInt
    let v2 ← get_operand_value mach o2 >>= asInt
    store_result mach o1 (Int.lor v1 v2)
  | _ => .error (.valueError "OR instruction requires two operands")

/-- Processor.xor_op. -/
def xor_op (mach : Machine) (operands : List String) : Except PyErr Machine :=
  match operands with
  | [o1, o2] => do
    let v1 ← get_operand_value mach o1 >>= asInt
    let v2 ← get_operand_value mach o2 >>= asInt
    store_result mach o1 (Int.xor v1 v2)
  | _ => .error (.valueError "XOR instruction requires two operands")

/-- Processor.shl: the Python left shift equals multiplication by 2 to
the shift amount and raises ValueError on a negative shift count. -/
def shl (mach : Machine) (operands : List String) : Except PyErr Machine :=
  match operands with
  | [o1, o2] => do
    let v ← get_operand_value mach o1 >>= asInt
    let s ← get_operand_value mach o2 >>= asInt
    if s < 0 then .error (.valueError "negative shift count")
    else store_result mach o1 (v * (2 : Int) ^ s.toNat)
  | _ => .ok mach

/-- Processor.shr: the Python right shift on ints is floor division by 2
to the shift amount (arithmetic shift) and raises ValueError on a
negative shift count. -/
def shr (mach : Machine) (operands : List String) : Except PyErr Machine :=
  match operands with
  | [o1, o2] => do
    let v ← get_operand_value mach o1 >>= asInt
    let s ← get_operand_value mach o2 >>= asInt
    if s < 0 then .error (.valueError "negative shift count")
    else store_result mach o1 (Int.fdiv v ((2 : Int) ^ s.toNat))
  | _ => .ok mach

/-- Processor.execute_instruction: label placeholders (None entries) are
skipped; the assert on the opcode raises AssertionError for a name
outside the instruction_types dictionary; otherwise the matching method
runs on the operand list. -/
def execute_instruction (mach : Machine) (instruction : InstrEntry) :
    Except PyErr Machine :=
  match instruction with
  | none => .ok mach
  | some (ty, operands) =>
    match ty with
    | "MOV" => mov mach operands
    | "ADD" => add mach operands
    | "SUB" => sub mach operands
    | "MUL" => mul mach operands
    | "DIV" => div mach operands
    | "CMP" => cmp mach operands
    | "JMP" => jmp mach operands
    | "JE" => je mach operands
    | "JNE" => jne mach operands
    | "JG" => jg mach operands
    | "JL" => jl mach operands
    | "JGE" => jge mach operands
    | "JLE" => jle mach operands
    | "PUSH" => push mach operands
    | "POP" => pop mach operands
    | "CALL" => call mach operands
    | "RET" => ret mach operands
    | "NOT" => not_op mach operands
    | "AND" => and_op mach operands
    | "OR" => or_op mach operands
    | "XOR" => xor_op mach operands
    | "SHL" => shl mach operands
    | "SHR" => shr mach operands
    | _ => .error (.assertionError "Unknown instruction type")

/-- Processor.parse_instruction: comment and blank lines are skipped;
the text after the first semicolon is discarded; a recognised opcode is
stored with its comma-stripped operands; a token ending in a colon binds
a label; ANY OTHER first token falls off the if-elif chain and the line
is silently ignored. -/
def parse_instruction (mach : Machine) (instruction : String) : Except PyErr Machine :=
  if strStartsWith instruction ";" ∨ instruction = "" then .ok mach
  else
    let instruction := strSplitSemiHead instruction
    match splitWs instruction with
    | [] => .error (.indexError "list index out of range")
    | opcode :: rest =>
      if instructionTypeNames.contains opcode then do
        let operands := rest.map (fun o => strRemoveCommas o)
        let mem ← mach.mem.add_instruction (some (opcode, operands)) none
        .ok { mach with mem := mem }
      else if strEndsWith opcode ":" then do
        let mem ← mach.mem.add_instruction none (some (strDropRight opcode 1))
        .ok { mach with mem := mem }
      else .ok mach

/-- Processor.parse_file: parses every stripped source line in order and
then marks the file as parsed. -/
def parse_file (mach : Machine) : Except PyErr Machine := do
  let mach ← mach.sourceLines.foldlM (fun mch line => parse_instruction mch (strTrim line)) mach
  .ok { mach with isFileParsed := true }

/-- Helper rewriting the keyboard FIFO contents inside the memory. -/
def setKeyboard (mach : Machine) (q : List Nat) : Machine :=
  { mach with mem := { mach.mem with keyboard := some q } }

/-- Loop body of Processor.reading_input: drains the FIFO one character
at a time; a carriage return (13) ends the read, converts the
accumulated buffer, stores it to the recorded destination and clears the
buffer, leaving the rest of the FIFO untouched; any other character is
appended to the buffer.  The program counter is never written here. -/
def reading_input_loop (mach : Machine) (queue : List Nat) : Except PyErr Machine :=
  match queue with
  | [] => .ok (setKeyboard mach [])
  | c :: rest =>
    if c = 13 then
      let mach := setKeyboard { mach with isReadingInput := false } rest
      match mach.inputDestination with
      | none => .error (.attributeError "NoneType has no attribute startswith")
      | some dest => do
        let mach ← store_result mach dest (convert_keyboard_input mach.input)
        .ok { mach with input := "" }
    else
      reading_input_loop { mach with input := mach.input.push (Char.ofNat c) } rest

/-- Processor.reading_input: a missing keyboard pointer makes the whole
body a no-op; otherwise the FIFO is drained. -/
def reading_input (mach : Machine) : Except PyErr Machine :=
  match mach.mem.get_keyboard_pointer with
  | none => .ok mach
  | some queue => reading_input_loop mach queue

/-- Processor.execute_program, the single-tick entry point: without a
file name the tick is a no-op; an unparsed file is parsed and the
program counter initialised to 0 when unset; a tick in the
reading-input state only services the read and returns; otherwise, when
the program counter is a valid instruction address, the instruction
there executes and the POST-execution counter is incremented by one
(this increment also runs after an instruction that set the counter,
such as a branch, a call, a ret, or a mov that entered the
reading-input state). -/
def execute_program (mach : Machine) : Except PyErr Machine := do
  match mach.fileName with
  | none => .ok mach
  | some _ => do
    let mach ←
      if mach.isFileParsed then Except.ok mach
      else do
        let m ← parse_file mach
        Except.ok (if m.programCounter = none then { m with programCounter := some 0 } else m)
    if mach.isReadingInput then
      reading_input mach
    else
      match mach.programCounter with
      | none => .error (.typeError "comparison between NoneType and int")
      | some pc =>
        if mach.mem.check_instruction_memory_address pc then do
          let instr ← mach.mem.get_instruction pc
          let mach ← execute_instruction mach instr
          match mach.programCounter with
          | some p => .ok { mach with programCounter := some (p + 1) }
          | none => .error (.typeError "unsupported operand for +=")
        else .ok mach

/-- Iterated ticks of the host driver. -/
def runTicks (mach : Machine) : Nat → Except PyErr Machine
  | 0 => .ok mach
  | n + 1 => do
    let mach ← execute_program mach
    runTicks mach n

end Machine

/-- Well-formedness of the label table: every binding points inside the
written instruction prefix. -/
def labelsWF (m : Memory) : Prop :=
  ∀ p ∈ m.labels, p.2 < m.instructionMemory.length

/-! Concrete fixtures used by the counterexample and witness theorems:
a 1024-cell memory with the keyboard mapped at address 100 and the video
range 0 to 15, and a freshly constructed processor around it. -/

/-- Flags state with every flag cleared, as at construction. -/
def flagsOff : Flags :=
  { CF := false, PF := false, ZF := false, SF := false, OF := false }

/-- Base memory fixture. -/
def memFix : Memory :=
  { instructionMemorySize := 1024
    dataMemorySize := 1024
    keyboardBufferAddress := 100
    videoMemoryStart := 0
    videoMemoryEnd := 15
    instructionMemory := []
    dataMemory := List.replicate 1024 none
    labels := []
    keyboard := some [] }

/-- Base machine fixture: freshly reset registers, parsed empty program,
program counter 0. -/
def machFix : Machine :=
  { dataRegisters := List.replicate 8 0
    flags := flagsOff
    programCounter := some 0
    stackPointer := []
    mem := memFix
    isFileParsed := true
    fileName := some "program.asm"
    sourceLines := []
    isReadingInput := false
    input := ""
    inputDestination := none }

/-- Machine about to execute MOV R0, #40000. -/
def machMov40000 : Machine :=
  { machFix with mem :=
    { memFix with instructionMemory := [some ("MOV", ["R0", "#40000"])] } }

/-- Machine about to execute MOV R0, M100 where 100 is the keyboard
address. -/
def machKb : Machine :=
  { machFix with mem :=
    { memFix with instructionMemory := [some ("MOV", ["R0", "M100"])] } }

/-- Machine with ZF set, SF and OF clear, a label L at index 0, and the
program counter parked at 7. -/
def machJge : Machine :=
  { machFix with
    programCounter := some 7
    flags := { CF := false, PF := false, ZF := true, SF := false, OF := false }
    mem := { memFix with labels := [("L", 0)] } }

/-- Machine with R1 = 5 and one integer already on the stack. -/
def machStack : Machine :=
  { machFix with
    dataRegisters := [0, 5, 0, 0, 0, 0, 0, 0]
    stackPointer := [.intV 9] }

/-- Machine with R0 = -7 and R1 = 2. -/
def machDiv : Machine :=
  { machFix with dataRegisters := [-7, 2, 0, 0, 0, 0, 0, 0] }

/-- Machine holding an unparsed source program whose CALL sits at
instruction index 0. -/
def machCallRet : Machine :=
  { machFix with
    programCounter := none
    isFileParsed := false
    sourceLines := ["CALL f", "MOV R0, #7", "f:", "MOV R1, #9", "RET"] }

/-- Parsed five-entry program (CALL f / MOV R0 #7 / label f / MOV R1 #9
/ RET) about to execute the CALL at index 0. -/
def machCall : Machine :=
  { machFix with mem :=
    { memFix with
      instructionMemory :=
        [some ("CALL", ["f"]), some ("MOV", ["R0", "#7"]), none,
         some ("MOV", ["R1", "#9"]), some ("RET", [])]
      labels := [("f", 2)] } }

/-- The same program about to execute the RET at index 4, with the
return address 3 on the stack. -/
def machRet : Machine :=
  { machCall with
    programCounter := some 4
    stackPointer := [.intV 3] }

/-! Helper lemmas shared between several claim proofs. -/

/-- A successful association-list lookup produces a member pair. -/
theorem lookup_mem_pair (l : List (String × Nat)) (a : String) (b : Nat)
    (h : l.lookup a = some b) : (a, b) ∈ l := by
  induction l with
  | nil => simp [List.lookup] at h
  | cons p rest ih =>
    obtain ⟨k, v⟩ := p
    rw [List.lookup_cons] at h
    by_cases hk : a = k
    · simp [hk] at h
      simp [hk, h]
    · have hbeq : (a == k) = false := beq_false_of_ne hk
      simp [hbeq] at h
      exact List.mem_cons_of_mem _ (ih h)

/-- Bind of a successful Except computation reduces to the
continuation. -/
theorem exceptBindOk {α β : Type} (x : α) (f : α → Except PyErr β) :
    (Except.ok x >>= f) = f x := rfl

/-- Bind of a failed Except computation short-circuits. -/
theorem exceptBindErr {α β : Type} (e : PyErr) (f : α → Except PyErr β) :
    ((Except.error e : Except PyErr α) >>= f) = Except.error e := rfl

/-- Claim C5 (confirmed): set_data fails with an invalid-data-address
error exactly when the address is negative, at or beyond the data size,
or equal to the keyboard address, leaving memory unchanged (the error
carries no new memory); for a video-range address the stored value is
the low byte, otherwise the value itself is stored. -/
theorem set_data_spec (m : Memory) (a v : Int) :
    ((a < 0 ∨ a ≥ (m.dataMemorySize : Int) ∨ a = m.keyboardBufferAddress) →
      ∃ msg, m.set_data a v = .error (.invalidMemoryAddr msg)) ∧
    (¬(a < 0 ∨ a ≥ (m.dataMemorySize : Int) ∨ a = m.keyboardBufferAddress) →
      m.set_data a v = .ok { m with
        dataMemory := m.dataMemory.set a.toNat
          (some (if m.videoMemoryStart ≤ a ∧ a ≤ m.videoMemoryEnd then v % 256 else v)) }) := by
  constructor
  · intro h
    by_cases h1 : a ≥ (m.dataMemorySize : Int) ∨ a < 0
    · refine ⟨"Data memory overflow", ?_⟩
      unfold Memory.set_data Memory.check_memory_address
      rw [if_pos h1]
      rfl
    · have h2 : a = m.keyboardBufferAddress := by tauto
      refine ⟨"Cannot overwrite keyboard buffer", ?_⟩
      unfold Memory.set_data Memory.check_memory_address
      rw [if_neg h1, if_pos h2]
      rfl
  · intro h
    push_neg at h
    obtain ⟨h1, h2, h3⟩ := h
    have hc1 : ¬(a ≥ (m.dataMemorySize : Int) ∨ a < 0) := by omega
    unfold Memory.set_data Memory.check_memory_address
    rw [if_neg hc1, if_neg h3]
    simp only [exceptBindOk, ge_iff_le]

/-- Witness for set_data_spec: storing 321 at video address 5 masks the
value to 65. -/
theorem set_data_spec_witness :
    ¬((5 : Int) < 0 ∨ (5 : Int) ≥ (memFix.dataMemorySize : Int) ∨
        (5 : Int) = memFix.keyboardBufferAddress) ∧
    memFix.set_data 5 321 = .ok { memFix with
      dataMemory := memFix.dataMemory.set (5 : Int).toNat
        (some (if memFix.videoMemoryStart ≤ (5 : Int) ∧ (5 : Int) ≤ memFix.videoMemoryEnd
          then (321 : Int) % 256 else 321)) } :=
  ⟨by decide, (set_data_spec memFix 5 321).2 (by decide)⟩

/-- Claim C9 (confirmed): reading the keyboard-mapped cell through
Memory.get_data always raises an invalid-memory-address error, for every
Memory value, so it never returns a value. -/
theorem get_data_keyboard_always_errors (m : Memory) :
    ∃ msg, m.get_data m.keyboardBufferAddress = .error (.invalidMemoryAddr msg) := by
  by_cases h1 : m.keyboardBufferAddress ≥ (m.dataMemorySize : Int) ∨ m.keyboardBufferAddress < 0
  · refine ⟨"Data memory overflow", ?_⟩
    unfold Memory.get_data Memory.check_memory_address
    rw [if_pos h1]
    rfl
  · refine ⟨"Cannot overwrite keyboard buffer", ?_⟩
    unfold Memory.get_data Memory.check_memory_address
    rw [if_neg h1, if_pos rfl]
    rfl

/-- Claim C10 (confirmed): add_instruction preserves well-formedness of
the label table, a supplied label is bound exactly to the index of the
entry just appended, and goto_label on a well-formed table always
returns an index inside the written instruction prefix. -/
theorem label_table_well_formed :
    (∀ (m : Memory) (instr : InstrEntry) (l : Option String) (mp : Memory),
      labelsWF m → m.add_instruction instr l = .ok mp → labelsWF mp) ∧
    (∀ (m : Memory) (instr : InstrEntry) (l : String) (mp : Memory),
      m.add_instruction instr (some l) = .ok mp →
        mp.labels.lookup l = some m.instructionMemory.length) ∧
    (∀ (m : Memory) (name : String) (idx : Nat),
      labelsWF m → m.goto_label name = .ok idx → idx < m.instructionMemory.length) := by
  refine ⟨?_, ?_, ?_⟩
  · intro m instr l mp hwf hadd
    unfold Memory.add_instruction Memory.check_instruction_memory_overflow at hadd
    by_cases hof : m.instructionMemory.length ≥ m.instructionMemorySize
    · rw [if_pos hof, exceptBindErr] at hadd
      exact absurd hadd (by simp)
    · rw [if_neg hof, exceptBindOk] at hadd
      cases l with
      | none =>
        simp only [Except.ok.injEq] at hadd
        subst hadd
        intro p hp
        simp only [List.length_append, List.length_cons]
        exact Nat.lt_succ_of_lt (hwf p hp)
      | some lbl =>
        simp only [Except.ok.injEq] at hadd
        subst hadd
        intro p hp
        simp only [List.mem_cons] at hp
        rcases hp with hp | hp
        · subst hp
          simp [List.length_append]
        · simp only [List.length_append, List.length_cons]
          exact Nat.lt_succ_of_lt (hwf p hp)
  · intro m instr l mp hadd
    unfold Memory.add_instruction Memory.check_instruction_memory_overflow at hadd
    by_cases hof : m.instructionMemory.length ≥ m.instructionMemorySize
    · rw [if_pos hof, exceptBindErr] at hadd
      exact absurd hadd (by simp)
    · rw [if_neg hof, exceptBindOk] at hadd
      simp only [Except.ok.injEq] at hadd
      subst hadd
      simp [List.lookup_cons, List.length_append]
  · intro m name idx hwf hgoto
    unfold Memory.goto_label at hgoto
    cases hlk : m.labels.lookup name with
    | none => simp [hlk] at hgoto
    | some b =>
      simp only [hlk, Except.ok.injEq] at hgoto
      subst hgoto
      exact hwf (name, b) (lookup_mem_pair _ _ _ hlk)

/-- Witness for label_table_well_formed: binding label L while the
instruction memory holds one entry binds it to index 1, which is inside
the two-entry prefix that results. -/
theorem label_table_well_formed_witness :
    ({ memFix with instructionMemory := [none] } : Memory).add_instruction none (some "L") =
      .ok { memFix with instructionMemory := [none, none], labels := [("L", 1)] } ∧
    ({ memFix with instructionMemory := [none, none], labels := [("L", 1)] } :
        Memory).labels.lookup "L" = some 1 ∧
    (1 : Nat) < ({ memFix with instructionMemory := [none, none], labels := [("L", 1)] } :
        Memory).instructionMemory.length := by
  refine ⟨by rfl, ?_, ?_⟩
  · exact label_table_well_formed.2.1
      { memFix with instructionMemory := [none] } none "L" _ (by rfl)
  · exact label_table_well_formed.2.2
      { memFix with instructionMemory := [none, none], labels := [("L", 1)] }
      "L" 1 (by unfold labelsWF; decide) (by rfl)

/-- Claim C7 counterexample: the claim says a line whose first token is
neither an opcode nor a label fails with a load-time UnknownOpcode
error, but parse_instruction on the line FOO R0 returns successfully
with the machine (and hence the instruction memory) unchanged: no error
is raised and nothing is stored. -/
theorem unknown_opcode_silently_ignored :
    Machine.parse_instruction machFix "FOO R0" = .ok machFix := by
  rfl

/-- Claim C7 (corrected): during loading, a source line whose first
token is neither a recognised opcode nor a label is SILENTLY IGNORED:
parse_instruction returns the machine unchanged and raises nothing. -/
theorem parse_unknown_token_no_effect (mach : Machine) (line t : String)
    (rest : List String)
    (h0 : strStartsWith line ";" = false)
    (h1 : line ≠ "")
    (h2 : splitWs (strSplitSemiHead line) = t :: rest)
    (h3 : instructionTypeNames.contains t = false)
    (h4 : strEndsWith t ":" = false) :
    Machine.parse_instruction mach line = .ok mach := by
  unfold Machine.parse_instruction
  rw [if_neg (by simp [h0, h1])]
  simp only [h2, h3, h4]
  rfl

/-- Witness for parse_unknown_token_no_effect at the line FOO R0,
discharging each hypothesis concretely. -/
theorem parse_unknown_token_no_effect_witness :
    splitWs (strSplitSemiHead "FOO R0") = ["FOO", "R0"] ∧
    instructionTypeNames.contains "FOO" = false ∧
    Machine.parse_instruction machStack "FOO R0" = .ok machStack :=
  ⟨by rfl, by rfl,
    parse_unknown_token_no_effect machStack "FOO R0" "FOO" ["R0"]
      (by rfl) (by decide) (by rfl) (by rfl) (by rfl)⟩

/-- Claim C3 counterexample: in the state machJge the flags satisfy
SF equals OF (both false) and label L resolves to 0, so the claim says
JGE L must set the program counter to 0; the code instead leaves the
machine completely unchanged (the counter stays 7), because the Python
condition compares SF with ZF and ZF is set. -/
theorem jge_ignores_overflow_flag :
    Machine.jge machJge ["L"] = .ok machJge ∧
    machJge.flags.SF = machJge.flags.OF ∧
    machJge.mem.goto_label "L" = .ok 0 ∧
    machJge.programCounter = some 7 := by
  refine ⟨by rfl, by rfl, by rfl, by rfl⟩

/-- Claim C3 (corrected): for every flags state, JGE L sets the program
counter to the label index if and only if SF equals ZF (the code
compares the sign flag with the ZERO flag, not with the overflow flag);
otherwise the machine is unchanged and the counter advances past the
JGE in the surrounding tick. -/
theorem jge_branches_on_SF_eq_ZF (mach : Machine) (L : String) (idx : Nat)
    (hgoto : mach.mem.goto_label L = .ok idx) :
    Machine.jge mach [L] =
      .ok (if mach.flags.SF = mach.flags.ZF
        then { mach with programCounter := some (idx : Int) }
        else mach) := by
  by_cases h : mach.flags.SF = mach.flags.ZF
  · simp [Machine.jge, h, hgoto, exceptBindOk]
  · simp [Machine.jge, h]

/-- Witness for jge_branches_on_SF_eq_ZF at machJge and label L. -/
theorem jge_branches_on_SF_eq_ZF_witness :
    machJge.mem.goto_label "L" = .ok 0 ∧
    Machine.jge machJge ["L"] =
      .ok (if machJge.flags.SF = machJge.flags.ZF
        then { machJge with programCounter := some ((0 : Nat) : Int) }
        else machJge) :=
  ⟨by rfl, jge_branches_on_SF_eq_ZF machJge "L" 0 (by rfl)⟩

/-- Claim C4 counterexample: with R1 = 5 and the stack holding the
integer 9, PUSH R1 leaves the STRING R1 on top (not the evaluated value
5), and POP R0 removes the 9 but stores nothing: R0 is still 0
afterwards, not 9. -/
theorem push_pushes_name_pop_discards :
    (Machine.push machStack ["R1"]).toOption.map (fun m => m.stackPointer) =
      some [.intV 9, .strV "R1"] ∧
    (Machine.pop machStack ["R0"]).toOption.map
        (fun m => (m.stackPointer, m.dataRegisters.getD 0 0, m.dataRegisters.getD 1 0)) =
      some ([], 0, 5) := by
  refine ⟨by rfl, by rfl⟩

/-- Claim C4 (corrected): PUSH src appends the operand STRING itself to
the call stack (the operand is never evaluated), and POP dst only
removes the top element, storing nothing into dst; POP on an empty
stack fails with the Python IndexError of list.pop. -/
theorem push_pop_string_semantics :
    (∀ (mach : Machine) (op : String),
      Machine.push mach [op] =
        .ok { mach with stackPointer := mach.stackPointer ++ [.strV op] }) ∧
    (∀ (mach : Machine) (dst : String), mach.stackPointer = [] →
      Machine.pop mach [dst] = .error (.indexError "pop from empty list")) ∧
    (∀ (mach : Machine) (dst : String), mach.stackPointer ≠ [] →
      Machine.pop mach [dst] =
        .ok { mach with stackPointer := mach.stackPointer.dropLast }) := by
  refine ⟨?_, ?_, ?_⟩
  · intro mach op
    rfl
  · intro mach dst h
    unfold Machine.pop
    rw [h]
    rfl
  · intro mach dst h
    rcases List.eq_nil_or_concat mach.stackPointer with h' | ⟨L, b, hL⟩
    · exact absurd h' h
    · unfold Machine.pop
      rw [List.concat_eq_append] at hL
      rw [hL, List.getLast?_concat]

/-- Witness for push_pop_string_semantics: pushing R1 and popping on
the concrete fixture machStack. -/
theorem push_pop_string_semantics_witness :
    Machine.push machStack ["R1"] =
      .ok { machStack with stackPointer := machStack.stackPointer ++ [.strV "R1"] } ∧
    machStack.stackPointer ≠ [] ∧
    Machine.pop machStack ["R0"] =
      .ok { machStack with stackPointer := machStack.stackPointer.dropLast } :=
  ⟨push_pop_string_semantics.1 machStack "R1", by decide,
    push_pop_string_semantics.2.2 machStack "R0" (by decide)⟩

/-- Claim C6 counterexample: with R0 = -7 and R1 = 2, DIV R0, R1 stores
-4 (the Python floor division), while truncation toward zero as the
claim demands would give Int.tdiv (-7) 2 = -3. -/
theorem div_floors_negative_quotient :
    (Machine.div machDiv ["R0", "R1"]).toOption.map (fun m => m.dataRegisters.getD 0 0) =
      some (-4) ∧
    Int.tdiv (-7) 2 = -3 ∧ (-4 : Int) ≠ -3 := by
  refine ⟨by rfl, by rfl, by decide⟩

/-- Claim C6 (corrected): DIV dst,src fails with DivisionByZero if and
only if the source evaluates to 0 (the error propagates before any
store, so dst is unchanged), and otherwise stores the FLOOR division of
the two evaluated values (Python //, rounding toward negative
infinity), not the truncation toward zero the claim states. -/
theorem div_zero_check_and_floor (mach : Machine) (o1 o2 : String) (v1 v2 : Int)
    (h1 : Machine.get_operand_value mach o1 = .ok (some v1))
    (h2 : Machine.get_operand_value mach o2 = .ok (some v2)) :
    (v2 = 0 →
      Machine.div mach [o1, o2] =
        .error (.divisionByZero "Video memory address out of bounds")) ∧
    (v2 ≠ 0 →
      Machine.div mach [o1, o2] = Machine.store_result mach o1 (Int.fdiv v1 v2)) := by
  have hstep : Machine.div mach [o1, o2] = (do
      let v1 ← Machine.get_operand_value mach o1 >>= Machine.asInt
      let v2 ← Machine.get_operand_value mach o2 >>= Machine.asInt
      if v2 ≠ 0 then Machine.store_result mach o1 (Int.fdiv v1 v2)
      else Except.error (.divisionByZero "Video memory address out of bounds")) := rfl
  constructor
  · intro hz
    rw [hstep, h1, h2]
    simp only [exceptBindOk, Machine.asInt]
    rw [if_neg (by simp [hz])]
  · intro hnz
    rw [hstep, h1, h2]
    simp only [exceptBindOk, Machine.asInt]
    rw [if_pos hnz]

/-- Witness for div_zero_check_and_floor on machDiv (R0 = -7, R1 = 2). -/
theorem div_zero_check_and_floor_witness :
    (2 : Int) ≠ 0 ∧
    Machine.div machDiv ["R0", "R1"] = Machine.store_result machDiv "R0" (Int.fdiv (-7) 2) :=
  ⟨by decide,
    (div_zero_check_and_floor machDiv "R0" "R1" (-7) 2 (by rfl) (by rfl)).2 (by decide)⟩

/-- Claim C1 counterexample: executing MOV R0, #40000 leaves R0 = 40000,
not the saturated 32767 the claim states, and 40000 violates the claimed
register invariant bound 32767. -/
theorem mov_40000_not_saturated :
    (Machine.execute_program machMov40000).toOption.map (fun m => m.dataRegisters.getD 0 0) =
      some 40000 ∧
    ¬((40000 : Int) ≤ 32767) := by
  refine ⟨by rfl, by decide⟩

/-- Claim C1 (corrected): store_result never clamps: the Python body
computes assert_16_bit(result) but discards the returned value, so for
every register destination the RAW result is stored, and register
values can leave the signed 16-bit range (MOV R0, #40000 leaves
R0 = 40000). -/
theorem store_result_stores_raw_value (mach : Machine) (dst : String) (i result : Int)
    (h1 : strStartsWith dst "R" = true)
    (h2 : strToInt? (strDrop dst 1) = some i)
    (h3 : 0 ≤ i)
    (h4 : i < (mach.dataRegisters.length : Int)) :
    Machine.store_result mach dst result =
      .ok { mach with dataRegisters := mach.dataRegisters.set i.toNat result } := by
  unfold Machine.store_result
  rw [h1]
  rw [if_pos rfl]
  rw [h2]
  simp only []
  unfold Machine.check_register_index
  rw [if_neg (by omega), exceptBindOk]

/-- Witness for store_result_stores_raw_value: the out-of-range value
40000 is written verbatim into R0. -/
theorem store_result_stores_raw_value_witness :
    strToInt? (strDrop "R0" 1) = some 0 ∧
    Machine.store_result machFix "R0" 40000 =
      .ok { machFix with dataRegisters := machFix.dataRegisters.set (0 : Int).toNat 40000 } :=
  ⟨by rfl, store_result_stores_raw_value machFix "R0" 0 40000 (by rfl) (by rfl)
    (by decide) (by decide)⟩

/-- Helper: store_result never writes the program counter. -/
theorem store_result_preserves_pc (mach : Machine) (dst : String) (r : Int) (m2 : Machine)
    (h : Machine.store_result mach dst r = .ok m2) :
    m2.programCounter = mach.programCounter := by
  unfold Machine.store_result at h
  split at h
  · split at h
    · exact absurd h (by simp)
    · unfold Machine.check_register_index at h
      split at h
      · rw [exceptBindErr] at h
        exact absurd h (by simp)
      · rw [exceptBindOk] at h
        simp only [Except.ok.injEq] at h
        subst h
        rfl
  · split at h
    · cases hp : Machine.parse_memory_operand mach dst with
      | error e => rw [hp, exceptBindErr] at h; exact absurd h (by simp)
      | ok a =>
        rw [hp, exceptBindOk] at h
        cases hs : mach.mem.set_data a r with
        | error e => rw [hs, exceptBindErr] at h; exact absurd h (by simp)
        | ok mem2 =>
          rw [hs, exceptBindOk] at h
          simp only [Except.ok.injEq] at h
          subst h
          rfl
    · simp only [Except.ok.injEq] at h
      subst h
      rfl

/-- Helper: a store followed by clearing the input buffer never writes
the program counter. -/
theorem store_then_clear_pc (M : Machine) (dest : String) (v : Int) (m2 : Machine)
    (h : (Machine.store_result M dest v >>= fun m3 =>
        Except.ok { m3 with input := "" }) = .ok m2) :
    m2.programCounter = M.programCounter := by
  cases hsr : Machine.store_result M dest v with
  | error e =>
    rw [hsr, exceptBindErr] at h
    exact absurd h (by simp)
  | ok m3 =>
    rw [hsr, exceptBindOk] at h
    simp only [Except.ok.injEq] at h
    subst h
    exact store_result_preserves_pc M dest v m3 hsr

/-- Helper: the keyboard-drain loop never writes the program counter. -/
theorem reading_input_loop_preserves_pc (queue : List Nat) (mach m2 : Machine)
    (h : Machine.reading_input_loop mach queue = .ok m2) :
    m2.programCounter = mach.programCounter := by
  induction queue generalizing mach with
  | nil =>
    unfold Machine.reading_input_loop at h
    simp only [Except.ok.injEq] at h
    subst h
    rfl
  | cons c rest ih =>
    unfold Machine.reading_input_loop at h
    split at h
    · simp only [Machine.setKeyboard] at h
      split at h
      · exact absurd h (by simp)
      · have h2 := store_then_clear_pc _ _ _ _ h
        exact h2
    · exact ih { mach with input := mach.input.push (Char.ofNat c) } h

/-- Helper: servicing a blocking keyboard read never writes the program
counter. -/
theorem reading_input_preserves_pc (mach m2 : Machine)
    (h : Machine.reading_input mach = .ok m2) :
    m2.programCounter = mach.programCounter := by
  unfold Machine.reading_input at h
  split at h
  · simp only [Except.ok.injEq] at h
    subst h
    rfl
  · exact reading_input_loop_preserves_pc _ _ _ h

/-- Helper: shape of a tick on a parsed machine that is not in the
reading-input state and whose program counter points at a valid
instruction address: the fetched instruction executes and then the
post-execution counter is incremented. -/
theorem tick_exec (mach : Machine) (fn : String) (p : Int)
    (hfile : mach.fileName = some fn)
    (hparsed : mach.isFileParsed = true)
    (hread : mach.isReadingInput = false)
    (hpc : mach.programCounter = some p)
    (hvalid : mach.mem.check_instruction_memory_address p = true) :
    Machine.execute_program mach = (do
      let m2 ← Machine.execute_instruction mach (mach.mem.instructionMemory.getD p.toNat none)
      match m2.programCounter with
      | some q => Except.ok { m2 with programCounter := some (q + 1) }
      | none => Except.error (.typeError "unsupported operand for +=")) := by
  unfold Machine.execute_program
  rw [hfile]
  simp only []
  rw [hparsed]
  rw [if_pos rfl, exceptBindOk]
  rw [hread]
  rw [if_neg (by simp)]
  rw [hpc]
  simp only []
  rw [hvalid]
  rw [if_pos rfl]
  unfold Memory.get_instruction
  rw [hvalid]
  rw [if_pos rfl, exceptBindOk]

/-- Helper: shape of a tick on a parsed machine that is in the
reading-input state: the tick only services the read. -/
theorem tick_reading (mach : Machine) (fn : String)
    (hfile : mach.fileName = some fn)
    (hparsed : mach.isFileParsed = true)
    (hread : mach.isReadingInput = true) :
    Machine.execute_program mach = Machine.reading_input mach := by
  unfold Machine.execute_program
  rw [hfile]
  simp only []
  rw [hparsed]
  rw [if_pos rfl, exceptBindOk]
  rw [hread]
  rw [if_pos rfl]

/-- Claim C2 counterexample: on the tick that enters the Reading state
(MOV R0, M100 with the keyboard mapped at 100), the program counter
ADVANCES from 0 to 1, while the claim states it must stay unchanged on
that tick. -/
theorem keyboard_enter_tick_advances_pc :
    (Machine.execute_program machKb).toOption.map
        (fun m => (m.isReadingInput, m.programCounter)) =
      some (true, some 1) ∧
    (some (1 : Int) : Option Int) ≠ some 0 := by
  refine ⟨by rfl, by decide⟩

/-- Claim C2 (corrected): the tick that enters the Reading state
advances PC by one (the post-instruction increment of execute_program
still runs); on every SUBSEQUENT tick while Reading, including the one
on which carriage-return byte 13 completes the read, PC is unchanged —
so over the whole blocking read PC advances exactly once, on entry
rather than on completion. -/
theorem keyboard_read_pc_discipline :
    (∀ (mach : Machine) (fn dst src : String) (p : Int),
      mach.fileName = some fn →
      mach.isFileParsed = true →
      mach.isReadingInput = false →
      mach.programCounter = some p →
      mach.mem.check_instruction_memory_address p = true →
      mach.mem.instructionMemory.getD p.toNat none = some ("MOV", [dst, src]) →
      strStartsWith src "#" = false →
      strStartsWith src "R" = false →
      strStartsWith src "M" = true →
      Machine.parse_memory_operand mach src = .ok mach.mem.keyboardBufferAddress →
      Machine.execute_program mach = .ok { mach with
        isReadingInput := true
        inputDestination := some dst
        programCounter := some (p + 1) }) ∧
    (∀ (mach m2 : Machine) (fn : String),
      mach.fileName = some fn →
      mach.isFileParsed = true →
      mach.isReadingInput = true →
      Machine.execute_program mach = .ok m2 →
      m2.programCounter = mach.programCounter) := by
  constructor
  · intro mach fn dst src p hfile hparsed hread hpc hvalid hfetch hs1 hs2 hs3 haddr
    rw [tick_exec mach fn p hfile hparsed hread hpc hvalid]
    rw [hfetch]
    have hdisp : Machine.execute_instruction mach (some ("MOV", [dst, src])) =
        Machine.mov mach [dst, src] := rfl
    rw [hdisp]
    simp only [Machine.mov]
    rw [hs1]
    rw [if_neg (by simp)]
    rw [hs2]
    rw [if_neg (by simp)]
    rw [hs3]
    rw [if_pos rfl]
    unfold Machine.get_memory_data
    rw [hs3]
    rw [if_pos rfl]
    rw [haddr, exceptBindOk]
    rw [if_pos rfl]
    simp only [exceptBindOk]
    rw [hpc]
  · intro mach m2 fn hfile hparsed hread hexec
    rw [tick_reading mach fn hfile hparsed hread] at hexec
    exact reading_input_preserves_pc mach m2 hexec

/-- Witness for keyboard_read_pc_discipline at machKb: entering the
read advances PC from 0 to 1 and records destination R0. -/
theorem keyboard_read_pc_discipline_witness :
    Machine.parse_memory_operand machKb "M100" = .ok machKb.mem.keyboardBufferAddress ∧
    Machine.execute_program machKb = .ok { machKb with
      isReadingInput := true
      inputDestination := some "R0"
      programCounter := some (0 + 1) } :=
  ⟨by rfl,
    keyboard_read_pc_discipline.1 machKb "program.asm" "R0" "M100" 0
      (by rfl) (by rfl) (by rfl) (by rfl) (by rfl) (by rfl)
      (by decide) (by decide) (by decide) (by rfl)⟩

/-- Claim C8 counterexample: in the program CALL f / MOV R0 #7 / f: /
MOV R1 #9 / RET the CALL sits at instruction index 0, so RET pops the
falsy value 0 and silently discards it: after the three ticks that run
CALL, the callee MOV and RET, the program counter is 5 (past the end),
the next tick is a no-op, and the instruction at index i+1 = 1 never
executes (R0 is still 0, not 7), while the claim promises execution
resumes at index 1. -/
theorem call_at_index_zero_breaks_ret :
    (Machine.runTicks machCallRet 3).toOption.map
        (fun m => (m.programCounter, m.dataRegisters.getD 0 0,
          m.dataRegisters.getD 1 0, m.stackPointer)) =
      some (some 5, 0, 9, []) ∧
    (Machine.runTicks machCallRet 4).toOption = (Machine.runTicks machCallRet 3).toOption := by
  refine ⟨by rfl, by rfl⟩

/-- Claim C8 (corrected): the CALL tick pushes the CALL index i and
lands one past the label entry, and a later RET tick with that i on top
of the stack resumes at i+1 with the stack restored — PROVIDED i is not
0: a CALL at instruction index 0 pushes the falsy 0, which RET discards
without setting the program counter, so the return is skipped. -/
theorem call_ret_round_trip :
    (∀ (mach : Machine) (fn : String) (i : Int) (L : String) (idx : Nat),
      mach.fileName = some fn →
      mach.isFileParsed = true →
      mach.isReadingInput = false →
      mach.programCounter = some i →
      mach.mem.check_instruction_memory_address i = true →
      mach.mem.instructionMemory.getD i.toNat none = some ("CALL", [L]) →
      mach.mem.goto_label L = .ok idx →
      Machine.execute_program mach = .ok { mach with
        stackPointer := mach.stackPointer ++ [.intV i]
        programCounter := some ((idx : Int) + 1) }) ∧
    (∀ (mach : Machine) (fn : String) (r i : Int) (rest : List StackElem)
        (ops : List String),
      mach.fileName = some fn →
      mach.isFileParsed = true →
      mach.isReadingInput = false →
      mach.programCounter = some r →
      mach.mem.check_instruction_memory_address r = true →
      mach.mem.instructionMemory.getD r.toNat none = some ("RET", ops) →
      mach.stackPointer = rest ++ [.intV i] →
      i ≠ 0 →
      Machine.execute_program mach = .ok { mach with
        stackPointer := rest
        programCounter := some (i + 1) }) := by
  constructor
  · intro mach fn i L idx hfile hparsed hread hpc hvalid hfetch hgoto
    rw [tick_exec mach fn i hfile hparsed hread hpc hvalid]
    rw [hfetch]
    have hdisp : Machine.execute_instruction mach (some ("CALL", [L])) =
        Machine.call mach [L] := rfl
    rw [hdisp]
    simp only [Machine.call]
    rw [hgoto, exceptBindOk]
    unfold Machine.pushedPc
    rw [hpc]
    simp only [exceptBindOk]
  · intro mach fn r i rest ops hfile hparsed hread hpc hvalid hfetch hstack hi
    rw [tick_exec mach fn r hfile hparsed hread hpc hvalid]
    rw [hfetch]
    have hdisp : Machine.execute_instruction mach (some ("RET", ops)) =
        Machine.ret mach ops := rfl
    rw [hdisp]
    unfold Machine.ret
    rw [hstack, List.getLast?_concat]
    simp only [List.dropLast_concat, StackElem.truthy]
    rw [if_pos (by simp [hi])]
    simp only [exceptBindOk]

/-- Witness for call_ret_round_trip: the CALL tick on machCall (CALL at
index 0, label f at 2) and the RET tick on machRet (return address 3 on
the stack). -/
theorem call_ret_round_trip_witness :
    Machine.execute_program machCall = .ok { machCall with
      stackPointer := machCall.stackPointer ++ [.intV 0]
      programCounter := some (((2 : Nat) : Int) + 1) } ∧
    Machine.execute_program machRet = .ok { machRet with
      stackPointer := []
      programCounter := some (3 + 1) } :=
  ⟨call_ret_round_trip.1 machCall "program.asm" 0 "f" 2
      (by rfl) (by rfl) (by rfl) (by rfl) (by decide) (by rfl) (by rfl),
    call_ret_round_trip.2 machRet "program.asm" 4 3 [] []
      (by rfl) (by rfl) (by rfl) (by rfl) (by decide) (by rfl) (by rfl) (by decide)⟩

end VM
